import Mathlib

/-!
Shallow embedding of the Emergency-Alert-sys client (React Native + Supabase)
for verification of its natural-language specification.

Modelled source files:
* `src/unnamed/part_002`            — alerts screen: `loadAlerts`, `updateAlertStatus`
  (a second, filter-less `loadAlerts` variant appears further down that file)
* `src/app/(tabs)/index.tsx`        — two `loadActiveAlerts` variants
* `src/app/(tabs)/contacts.tsx`     — `addContact`, `setPrimaryContact`
* `src/lib/geocoding` (in `src/unnamed/part_003`) — `getAddressFromCoordinates`
* `src/app/(auth)/register.tsx`     — `handleRegister`
* `src/supabase/migrations/20250305124847_jolly_island.sql` — schema and
  row-level-security policies

Database rows are embedded as structures, tables as lists, and each client
operation as a pure function from table state (plus the caller's identity and
the outcomes of external calls) to the new state / returned list.
-/

namespace EmergencyAlert

/-- `alert_type` enum from the migration: 'police' | 'medical' | 'general'. -/
inductive AlertType where
  | police
  | medical
  | general
deriving DecidableEq, Repr

/-- `alert_status` enum from the migration:
'pending' | 'acknowledged' | 'responding' | 'resolved'. -/
inductive AlertStatus where
  | pending
  | acknowledged
  | responding
  | resolved
deriving DecidableEq, Repr

/-- The three user types the client distinguishes (`checkUserType`). -/
inductive UserType where
  | civilian
  | police
  | hospital
deriving DecidableEq, Repr

/-- `responder_type` enum from the migration: 'police' | 'hospital'. -/
inductive ResponderType where
  | police
  | hospital
deriving DecidableEq, Repr

/-- A row of `public.alerts` (ids modelled as naturals, timestamps as
naturals: `created_at` increases with creation time). -/
structure Alert where
  id : Nat
  user_id : Nat
  type : AlertType
  status : AlertStatus
  created_at : Nat
deriving DecidableEq, Repr

/-- A row of `public.responders` (only the fields the modelled logic reads). -/
structure Responder where
  id : Nat
  responder_type : ResponderType
  verification_status : Bool
deriving DecidableEq, Repr

/-- A row of `public.contacts`. -/
structure Contact where
  id : Nat
  user_id : Nat
  name : String
  relationship : String
  phone_number : String
  email : String
  is_primary : Bool
deriving DecidableEq, Repr

/-- The backend tables the modelled operations touch. -/
structure DB where
  alerts : List Alert
  responders : List Responder
deriving Repr

/-- Migration policy "Responders can view alerts": the caller appears in
`public.responders` with `verification_status = true`. -/
def isVerifiedResponder (db : DB) (uid : Nat) : Bool :=
  db.responders.any fun r => r.id == uid && r.verification_status

/-- Row-level security on `select` over `public.alerts`: the union of policy
"Users can view own alerts" (`auth.uid() = user_id`) and policy
"Responders can view alerts" (caller is a verified responder). -/
def alertVisible (db : DB) (uid : Nat) (a : Alert) : Bool :=
  a.user_id == uid || isVerifiedResponder db uid

/-- Descending insertion by `created_at` (stable: an element is placed after
every earlier element with a greater-or-equal timestamp). -/
def insertDesc (a : Alert) : List Alert → List Alert
  | [] => [a]
  | b :: rest =>
      if a.created_at ≤ b.created_at then b :: insertDesc a rest
      else a :: b :: rest

/-- `.order('created_at', { ascending: false })`: sort the selected rows by
creation timestamp, most recent first. -/
def orderByCreatedAtDesc (l : List Alert) : List Alert :=
  l.foldr insertDesc []

/-- The per-user-type filter of `loadAlerts` in `src/unnamed/part_002`
(lines 131–140): civilian → `.eq('user_id', user.id)`; police →
`.or('type.eq.police,type.eq.general')`; hospital →
`.or('type.eq.medical,type.eq.general')`. -/
def loadAlertsFilter (ut : UserType) (uid : Nat) (a : Alert) : Bool :=
  match ut with
  | .civilian => a.user_id == uid
  | .police => a.type == .police || a.type == .general
  | .hospital => a.type == .medical || a.type == .general

/-- `loadAlerts` from `src/unnamed/part_002` (first alerts screen): select
from `alerts` under row-level security, apply the user-type filter, order by
`created_at` descending. -/
def loadAlerts (db : DB) (uid : Nat) (ut : UserType) : List Alert :=
  orderByCreatedAtDesc
    ((db.alerts.filter (alertVisible db uid)).filter (loadAlertsFilter ut uid))

/-- The type filter of the first `loadActiveAlerts` in
`src/app/(tabs)/index.tsx` (lines 170–204): police →
`.in('type', ['police', 'general'])`; hospital →
`.in('type', ['medical', 'general'])`; otherwise no type filter. -/
def loadActiveAlertsFilter (ut : UserType) (a : Alert) : Bool :=
  match ut with
  | .civilian => true
  | .police => a.type == .police || a.type == .general
  | .hospital => a.type == .medical || a.type == .general

/-- First `loadActiveAlerts` of `src/app/(tabs)/index.tsx`: select from
`alerts` under row-level security with `.not('status', 'eq', 'resolved')`,
the user-type `in`-filter, ordered by `created_at` descending. -/
def loadActiveAlerts (db : DB) (uid : Nat) (ut : UserType) : List Alert :=
  orderByCreatedAtDesc
    (((db.alerts.filter (alertVisible db uid)).filter
        (fun a => !(a.status == .resolved))).filter (loadActiveAlertsFilter ut))

/-- The type filter of the second `loadActiveAlerts` in
`src/app/(tabs)/index.tsx` (lines 996–1016): police → `.eq('type', 'police')`;
hospital → `.eq('type', 'medical')`; otherwise no type filter. -/
def loadActiveAlertsSimpleFilter (ut : UserType) (a : Alert) : Bool :=
  match ut with
  | .civilian => true
  | .police => a.type == .police
  | .hospital => a.type == .medical

/-- Second `loadActiveAlerts` of `src/app/(tabs)/index.tsx`: select from
`alerts` under row-level security with `.not('status', 'eq', 'resolved')`,
the user-type `eq`-filter, ordered by `created_at` descending. -/
def loadActiveAlertsSimple (db : DB) (uid : Nat) (ut : UserType) : List Alert :=
  orderByCreatedAtDesc
    (((db.alerts.filter (alertVisible db uid)).filter
        (fun a => !(a.status == .resolved))).filter
      (loadActiveAlertsSimpleFilter ut))

/-- The second `loadAlerts` further down `src/unnamed/part_002`
(lines 752–772): select from `alerts` with no client-side filter at all —
only row-level security restricts the rows — ordered by `created_at`
descending. -/
def loadAlertsSimple (db : DB) (uid : Nat) : List Alert :=
  orderByCreatedAtDesc (db.alerts.filter (alertVisible db uid))

/-! ### Contacts screen (`src/app/(tabs)/contacts.tsx`)

Contact writes pass through row-level security policy
"Users can CRUD their contacts" (`auth.uid() = user_id`), so every update
issued by the client only touches rows whose `user_id` is the caller. -/

/-- `addContact`: the inserted row carries
`is_primary: contacts.length === 0`, where `contacts` is the currently
loaded contact list held in component state. -/
def addContactRow (contacts : List Contact) (uid : Nat) (id : Nat)
    (name relationship phone_number email : String) : Contact :=
  { id := id
    user_id := uid
    name := name
    relationship := relationship
    phone_number := phone_number
    email := email
    is_primary := contacts.length == 0 }

/-- First write of `setPrimaryContact`:
`update({ is_primary: false }).neq('id', id)` — under row-level security it
clears `is_primary` on every contact of the caller except the chosen id. -/
def clearOtherPrimaries (contacts : List Contact) (uid chosen : Nat) :
    List Contact :=
  contacts.map fun c =>
    if c.id != chosen && c.user_id == uid then { c with is_primary := false }
    else c

/-- Second write of `setPrimaryContact`:
`update({ is_primary: true }).eq('id', id)` — under row-level security it
sets `is_primary` on the chosen contact when it belongs to the caller. -/
def setChosenPrimary (contacts : List Contact) (uid chosen : Nat) :
    List Contact :=
  contacts.map fun c =>
    if c.id == chosen && c.user_id == uid then { c with is_primary := true }
    else c

/-- `setPrimaryContact` run to completion: both sequential writes succeed. -/
def setPrimaryContact (contacts : List Contact) (uid chosen : Nat) :
    List Contact :=
  setChosenPrimary (clearOtherPrimaries contacts uid chosen) uid chosen

/-! ### Reverse geocoding (`getAddressFromCoordinates` in the geocoding
library, `src/unnamed/part_003`) -/

/-- Outcome of the `fetch` against the LocationIQ reverse endpoint:
the request may fail outright (rejected promise), or return a response with
an `ok` flag and a body that either parses to a JSON object carrying
`display_name` or is malformed (so `response.json()` throws). -/
inductive FetchOutcome where
  | networkError
  | response (ok : Bool) (body : Option String)
deriving DecidableEq, Repr

/-- Zero-pad a natural to six digits (the fractional part of `toFixed(6)`). -/
def pad6 (n : Nat) : String :=
  let s := toString n
  String.mk (List.replicate (6 - s.length) '0') ++ s

/-- JavaScript `Number.prototype.toFixed(6)` on the embedded rational
coordinate: round to six decimal places and print with exactly six digits
after the point. -/
def toFixed6 (q : ℚ) : String :=
  let n : ℤ := round (q * 1000000)
  let sign := if n < 0 then "-" else ""
  sign ++ toString (n.natAbs / 1000000) ++ "." ++ pad6 (n.natAbs % 1000000)

/-- The template-literal fallback
`` `${latitude.toFixed(6)}, ${longitude.toFixed(6)}` ``. -/
def coordFallback (latitude longitude : ℚ) : String :=
  toFixed6 latitude ++ ", " ++ toFixed6 longitude

/-- `getAddressFromCoordinates`: on a non-ok response it throws inside the
`try`, on a malformed body `response.json()` throws, and a network error
rejects — every such failure lands in the `catch`, which returns the
coordinate fallback string. A parsed body yields its `display_name`. The
function always returns a string; it never rethrows. -/
def getAddressFromCoordinates (latitude longitude : ℚ)
    (fetched : FetchOutcome) : String :=
  match fetched with
  | .networkError => coordFallback latitude longitude
  | .response ok body =>
      if !ok then coordFallback latitude longitude
      else
        match body with
        | none => coordFallback latitude longitude
        | some display_name => display_name

/-- A fetch outcome the source treats as a failure: network error, non-ok
response, or malformed body. -/
def fetchFailed (fetched : FetchOutcome) : Bool :=
  match fetched with
  | .networkError => true
  | .response ok body => !ok || body.isNone

/-! ### Alert status updates (`updateAlertStatus` in `src/unnamed/part_002`)

`update({ status }).eq('id', alertId)` — the write names only the target
row's id and the new status; neither the client nor any schema constraint
(the `alert_status` enum constrains values, not transitions) inspects the
row's current status. -/

/-- Effect of `updateAlertStatus`'s write on the `alerts` table. -/
def updateAlertStatus (alerts : List Alert) (alertId : Nat)
    (status : AlertStatus) : List Alert :=
  alerts.map fun a => if a.id == alertId then { a with status := status } else a

/-! ### Registration (`handleRegister` in `src/app/(auth)/register.tsx`) -/

/-- Does the character list `l` start with the character list `pat`? -/
def listHasPre : List Char → List Char → Bool
  | [], _ => true
  | _ :: _, [] => false
  | p :: ps, c :: cs => p == c && listHasPre ps cs

/-- Does some suffix of `l` start with `pat`? -/
def listHasSub (pat : List Char) : List Char → Bool
  | [] => listHasPre pat []
  | c :: cs => listHasPre pat (c :: cs) || listHasSub pat cs

/-- JavaScript `String.prototype.includes`. -/
def strIncludes (s pat : String) : Bool :=
  listHasSub pat.toList s.toList

/-- An identity record created by the auth provider's `signUp`. -/
structure Identity where
  id : Nat
  email : String
deriving DecidableEq, Repr

/-- Outcome of `supabase.auth.signUp`: an error, a null user, or a created
identity. -/
inductive AuthOutcome where
  | failure (message : String)
  | success (user : Option Identity)
deriving DecidableEq, Repr

/-- Backend state touched by registration: the identity provider's records
and the two profile tables (profile rows modelled by owner id). -/
structure RegDB where
  identities : List Identity
  users : List Nat
  responders : List Nat
deriving DecidableEq, Repr

/-- The `authError` mapping in step 1 of `handleRegister`: specific backend
substrings are rewritten to friendlier messages before the error is thrown. -/
def mapAuthError (message : String) : String :=
  if strIncludes message "duplicate key value violates unique constraint" then
    "An account with this email already exists"
  else if strIncludes message "Password should be at least" then
    "Password must be at least 6 characters long"
  else if strIncludes message "Invalid email" then
    "Please enter a valid email address"
  else if strIncludes message "weak password" then
    "Password is too weak. Please use a stronger password"
  else message

/-- The outer `catch` of `handleRegister`: the thrown message is surfaced via
`setError`, with one more rewrite for duplicate-account phrasing. -/
def displayRegisterError (message : String) : String :=
  if strIncludes message "duplicate" || strIncludes message "already exists" then
    "An account with this email already exists. Please try logging in instead."
  else message

/-- `handleRegister` after form validation: step 1 signs up with the identity
provider (adding an identity on success); step 2 inserts the profile row into
`users` (civilian) or `responders` (police/hospital). `profileErr` is the
outcome of that insert (`none` = success). A non-duplicate insert error
throws `'Failed to create … profile'`, which the outer catch surfaces as a
user-visible error; nothing deletes the identity created in step 1. Returns
the final backend state and the surfaced error, if any. -/
def handleRegister (db : RegDB) (ut : UserType) (auth : AuthOutcome)
    (profileErr : Option String) : RegDB × Option String :=
  match auth with
  | .failure message => (db, some (displayRegisterError (mapAuthError message)))
  | .success none => (db, some "Registration failed. Please try again.")
  | .success (some u) =>
      let db1 := { db with identities := u :: db.identities }
      match profileErr with
      | none =>
          if ut == .civilian then ({ db1 with users := u.id :: db1.users }, none)
          else ({ db1 with responders := u.id :: db1.responders }, none)
      | some message =>
          if strIncludes message "duplicate key value violates unique constraint" then
            (db1, none)
          else if ut == .civilian then
            (db1, some (displayRegisterError "Failed to create user profile"))
          else
            (db1, some (displayRegisterError "Failed to create responder profile"))

/-! ### Helper lemmas about the descending order -/

/-- The returned list is sorted most-recent-first: every alert's `created_at`
is at least its successor's. -/
def SortedByCreatedAtDesc (l : List Alert) : Prop :=
  List.Chain' (fun x y => y.created_at ≤ x.created_at) l

theorem orderByCreatedAtDesc_cons (b : Alert) (l : List Alert) :
    orderByCreatedAtDesc (b :: l) = insertDesc b (orderByCreatedAtDesc l) :=
  rfl

theorem mem_insertDesc {a x : Alert} {l : List Alert} :
    a ∈ insertDesc x l ↔ a = x ∨ a ∈ l := by
  induction l with
  | nil => simp [insertDesc]
  | cons b rest ih =>
      by_cases h : x.created_at ≤ b.created_at
      · simp only [insertDesc, if_pos h, List.mem_cons, ih]
        tauto
      · simp only [insertDesc, if_neg h, List.mem_cons]

theorem mem_orderByCreatedAtDesc {a : Alert} {l : List Alert} :
    a ∈ orderByCreatedAtDesc l ↔ a ∈ l := by
  induction l with
  | nil => simp [orderByCreatedAtDesc]
  | cons b rest ih =>
      rw [orderByCreatedAtDesc_cons, mem_insertDesc, ih, List.mem_cons]

theorem head?_insertDesc (a : Alert) (l : List Alert) :
    (insertDesc a l).head? = some a ∨ (insertDesc a l).head? = l.head? := by
  cases l with
  | nil => left; rfl
  | cons b rest =>
      by_cases h : a.created_at ≤ b.created_at
      · right; simp [insertDesc, h]
      · left; simp [insertDesc, h]

theorem sortedDesc_insertDesc {a : Alert} {l : List Alert}
    (h : SortedByCreatedAtDesc l) : SortedByCreatedAtDesc (insertDesc a l) := by
  induction l with
  | nil => simp [insertDesc, SortedByCreatedAtDesc]
  | cons b rest ih =>
      rw [SortedByCreatedAtDesc, List.chain'_cons'] at h
      by_cases hab : a.created_at ≤ b.created_at
      · rw [SortedByCreatedAtDesc]
        rw [show insertDesc a (b :: rest) = b :: insertDesc a rest by
          simp [insertDesc, hab]]
        rw [List.chain'_cons']
        refine ⟨?_, ih h.2⟩
        intro y hy
        rcases head?_insertDesc a rest with h1 | h1
        · rw [h1] at hy
          simp only [Option.mem_def, Option.some.injEq] at hy
          exact hy ▸ hab
        · rw [h1] at hy
          exact h.1 y hy
      · rw [SortedByCreatedAtDesc]
        rw [show insertDesc a (b :: rest) = a :: b :: rest by
          simp [insertDesc, hab]]
        rw [List.chain'_cons]
        exact ⟨Nat.le_of_lt (Nat.lt_of_not_le hab), List.chain'_cons'.mpr h⟩

theorem sortedDesc_orderByCreatedAtDesc (l : List Alert) :
    SortedByCreatedAtDesc (orderByCreatedAtDesc l) := by
  induction l with
  | nil => simp [orderByCreatedAtDesc, SortedByCreatedAtDesc]
  | cons b rest ih =>
      rw [orderByCreatedAtDesc_cons]
      exact sortedDesc_insertDesc ih

/-! ### Claims about the alert loaders -/

/-- C1 counterexample: the filter-less `loadAlerts` of `src/unnamed/part_002`
(lines 752–772) applies no type filter, and the "Responders can view alerts"
row-level-security policy shows a verified responder every alert — so a
verified police responder loading through it receives a medical alert,
refuting "no alert of type 'medical' appears" for that load. -/
theorem police_filterless_load_shows_medical :
    (⟨1, 5, .medical, .pending, 10⟩ : Alert) ∈
        loadAlertsSimple
          ⟨[⟨1, 5, .medical, .pending, 10⟩], [⟨9, .police, true⟩]⟩ 9 ∧
    (⟨1, 5, .medical, .pending, 10⟩ : Alert).type = .medical := by decide

/-- C1 (amended): every load through a type-filtered loader on behalf of a
police responder — `loadAlerts` at `src/unnamed/part_002` lines 131–140 and
both `loadActiveAlerts` variants in `src/app/(tabs)/index.tsx` — yields only
alerts of type 'police' or 'general', and never an alert of type 'medical';
the filter-less `loadAlerts` at part_002 lines 752–772 is excluded, since it
applies no type filter and shows a verified police responder alerts of every
type. -/
theorem police_load_type_filter (db : DB) (uid : Nat) (a : Alert)
    (h : a ∈ loadAlerts db uid .police ∨ a ∈ loadActiveAlerts db uid .police ∨
         a ∈ loadActiveAlertsSimple db uid .police) :
    (a.type = .police ∨ a.type = .general) ∧ a.type ≠ .medical := by
  have htype : a.type = .police ∨ a.type = .general := by
    rcases h with h | h | h
    · rw [loadAlerts, mem_orderByCreatedAtDesc] at h
      have hf := (List.mem_filter.mp h).2
      simpa [loadAlertsFilter] using hf
    · rw [loadActiveAlerts, mem_orderByCreatedAtDesc] at h
      have hf := (List.mem_filter.mp h).2
      simpa [loadActiveAlertsFilter] using hf
    · rw [loadActiveAlertsSimple, mem_orderByCreatedAtDesc] at h
      have hf := (List.mem_filter.mp h).2
      have : a.type = .police := by simpa [loadActiveAlertsSimpleFilter] using hf
      exact Or.inl this
  refine ⟨htype, ?_⟩
  rcases htype with h1 | h1 <;> simp [h1]

/-- Witness for C1 at a concrete database. -/
theorem police_load_type_filter_witness :
    (⟨1, 5, .police, .pending, 10⟩ : Alert) ∈
        loadAlerts ⟨[⟨1, 5, .police, .pending, 10⟩], []⟩ 5 .police ∧
    (((⟨1, 5, .police, .pending, 10⟩ : Alert).type = .police ∨
        (⟨1, 5, .police, .pending, 10⟩ : Alert).type = .general) ∧
      (⟨1, 5, .police, .pending, 10⟩ : Alert).type ≠ .medical) :=
  ⟨by decide,
    police_load_type_filter ⟨[⟨1, 5, .police, .pending, 10⟩], []⟩ 5
      ⟨1, 5, .police, .pending, 10⟩ (Or.inl (by decide))⟩

/-- C2 counterexample: the filter-less `loadAlerts` of `src/unnamed/part_002`
(lines 752–772) applies no type filter, so under the responder
row-level-security select policy a verified hospital responder loading
through it receives a police alert, refuting "no alert of type 'police'
appears" for that load. -/
theorem hospital_filterless_load_shows_police :
    (⟨1, 5, .police, .pending, 10⟩ : Alert) ∈
        loadAlertsSimple
          ⟨[⟨1, 5, .police, .pending, 10⟩], [⟨9, .hospital, true⟩]⟩ 9 ∧
    (⟨1, 5, .police, .pending, 10⟩ : Alert).type = .police := by decide

/-- C2 (amended): every load through a type-filtered loader on behalf of a
hospital responder — `loadAlerts` at `src/unnamed/part_002` lines 131–140 and
both `loadActiveAlerts` variants in `src/app/(tabs)/index.tsx` — yields only
alerts of type 'medical' or 'general', and never an alert of type 'police';
the filter-less `loadAlerts` at part_002 lines 752–772 is excluded, since it
applies no type filter and shows a verified hospital responder alerts of
every type. -/
theorem hospital_load_type_filter (db : DB) (uid : Nat) (a : Alert)
    (h : a ∈ loadAlerts db uid .hospital ∨ a ∈ loadActiveAlerts db uid .hospital ∨
         a ∈ loadActiveAlertsSimple db uid .hospital) :
    (a.type = .medical ∨ a.type = .general) ∧ a.type ≠ .police := by
  have htype : a.type = .medical ∨ a.type = .general := by
    rcases h with h | h | h
    · rw [loadAlerts, mem_orderByCreatedAtDesc] at h
      have hf := (List.mem_filter.mp h).2
      simpa [loadAlertsFilter] using hf
    · rw [loadActiveAlerts, mem_orderByCreatedAtDesc] at h
      have hf := (List.mem_filter.mp h).2
      simpa [loadActiveAlertsFilter] using hf
    · rw [loadActiveAlertsSimple, mem_orderByCreatedAtDesc] at h
      have hf := (List.mem_filter.mp h).2
      have : a.type = .medical := by simpa [loadActiveAlertsSimpleFilter] using hf
      exact Or.inl this
  refine ⟨htype, ?_⟩
  rcases htype with h1 | h1 <;> simp [h1]

/-- Witness for C2 at a concrete database. -/
theorem hospital_load_type_filter_witness :
    (⟨1, 5, .medical, .pending, 10⟩ : Alert) ∈
        loadAlerts ⟨[⟨1, 5, .medical, .pending, 10⟩], []⟩ 5 .hospital ∧
    (((⟨1, 5, .medical, .pending, 10⟩ : Alert).type = .medical ∨
        (⟨1, 5, .medical, .pending, 10⟩ : Alert).type = .general) ∧
      (⟨1, 5, .medical, .pending, 10⟩ : Alert).type ≠ .police) :=
  ⟨by decide,
    hospital_load_type_filter ⟨[⟨1, 5, .medical, .pending, 10⟩], []⟩ 5
      ⟨1, 5, .medical, .pending, 10⟩ (Or.inl (by decide))⟩

/-- C3: every load of the alerts list on behalf of a civilian user (who, per
the data model, is not a verified responder) yields only alerts created by
that user. This covers the `user_id`-filtered `loadAlerts` of
`src/unnamed/part_002` and the three loaders that rely solely on the
"Users can view own alerts" row-level-security policy. -/
theorem civilian_load_own_alerts (db : DB) (uid : Nat) (a : Alert)
    (hnr : isVerifiedResponder db uid = false)
    (h : a ∈ loadAlerts db uid .civilian ∨ a ∈ loadAlertsSimple db uid ∨
         a ∈ loadActiveAlerts db uid .civilian ∨
         a ∈ loadActiveAlertsSimple db uid .civilian) :
    a.user_id = uid := by
  rcases h with h | h | h | h
  · rw [loadAlerts, mem_orderByCreatedAtDesc] at h
    have hf := (List.mem_filter.mp h).2
    simpa [loadAlertsFilter] using hf
  · rw [loadAlertsSimple, mem_orderByCreatedAtDesc] at h
    have hf := (List.mem_filter.mp h).2
    simpa [alertVisible, hnr] using hf
  · rw [loadActiveAlerts, mem_orderByCreatedAtDesc] at h
    have hf := (List.mem_filter.mp (List.mem_filter.mp (List.mem_filter.mp h).1).1).2
    simpa [alertVisible, hnr] using hf
  · rw [loadActiveAlertsSimple, mem_orderByCreatedAtDesc] at h
    have hf := (List.mem_filter.mp (List.mem_filter.mp (List.mem_filter.mp h).1).1).2
    simpa [alertVisible, hnr] using hf

/-- Witness for C3 at a concrete database. -/
theorem civilian_load_own_alerts_witness :
    isVerifiedResponder ⟨[⟨1, 5, .general, .pending, 10⟩], []⟩ 5 = false ∧
    (⟨1, 5, .general, .pending, 10⟩ : Alert) ∈
        loadAlertsSimple ⟨[⟨1, 5, .general, .pending, 10⟩], []⟩ 5 ∧
    (⟨1, 5, .general, .pending, 10⟩ : Alert).user_id = 5 :=
  ⟨by decide, by decide,
    civilian_load_own_alerts ⟨[⟨1, 5, .general, .pending, 10⟩], []⟩ 5
      ⟨1, 5, .general, .pending, 10⟩ (by decide) (Or.inr (Or.inl (by decide)))⟩

/-- C7: every alerts list produced by a load operation is ordered by
`created_at` descending: each adjacent pair is ordered most-recent-first. -/
theorem load_results_sorted (db : DB) (uid : Nat) (ut : UserType) :
    SortedByCreatedAtDesc (loadAlerts db uid ut) ∧
    SortedByCreatedAtDesc (loadActiveAlerts db uid ut) ∧
    SortedByCreatedAtDesc (loadActiveAlertsSimple db uid ut) ∧
    SortedByCreatedAtDesc (loadAlertsSimple db uid) :=
  ⟨sortedDesc_orderByCreatedAtDesc _, sortedDesc_orderByCreatedAtDesc _,
    sortedDesc_orderByCreatedAtDesc _, sortedDesc_orderByCreatedAtDesc _⟩

/-! ### Claims about the contacts operations -/

/-- Net effect of both `setPrimaryContact` writes on one row: the chosen
contact of the caller becomes primary, every other contact of the caller
becomes non-primary, other users' rows are untouched. -/
def primaryUpdate (uid chosen : Nat) (c : Contact) : Contact :=
  if c.user_id == uid then
    (if c.id == chosen then { c with is_primary := true }
     else { c with is_primary := false })
  else c

theorem setPrimaryContact_eq_map (l : List Contact) (uid chosen : Nat) :
    setPrimaryContact l uid chosen = l.map (primaryUpdate uid chosen) := by
  rw [setPrimaryContact, clearOtherPrimaries, setChosenPrimary, List.map_map]
  congr 1
  funext c
  by_cases hu : c.user_id = uid <;> by_cases hc : c.id = chosen <;>
    simp [primaryUpdate, Function.comp, hu, hc]

theorem countP_user_chosen_eq_one (l : List Contact) (uid chosen : Nat)
    (c₀ : Contact) (hnd : (l.map (fun c => c.id)).Nodup) (hmem : c₀ ∈ l)
    (hid : c₀.id = chosen) (huid : c₀.user_id = uid) :
    l.countP (fun c => c.user_id == uid && c.id == chosen) = 1 := by
  induction l with
  | nil => cases hmem
  | cons h t ih =>
      simp only [List.map_cons, List.nodup_cons] at hnd
      obtain ⟨hnotin, hndt⟩ := hnd
      rcases List.mem_cons.mp hmem with heq | hmem'
      · subst heq
        rw [List.countP_cons_of_pos]
        · have hz : t.countP (fun c => c.user_id == uid && c.id == chosen) = 0 := by
            rw [List.countP_eq_zero]
            intro c hc hpc
            simp only [Bool.and_eq_true, beq_iff_eq] at hpc
            exact hnotin (List.mem_map.mpr ⟨c, hc, by rw [hpc.2, hid]⟩)
          rw [hz]
        · simp [huid, hid]
      · rw [List.countP_cons_of_neg]
        · exact ih hndt hmem'
        · simp only [Bool.and_eq_true, beq_iff_eq, not_and]
          intro _ hidh
          exact absurd (List.mem_map.mpr ⟨c₀, hmem', by rw [hid, hidh]⟩) hnotin

/-- C4: running `setPrimaryContact` to completion (both writes succeed) for a
contact id belonging to the caller leaves exactly one of the caller's
contacts with `is_primary = true`, namely the chosen contact. -/
theorem setPrimaryContact_exactly_one_primary (l : List Contact)
    (uid chosen : Nat) (c₀ : Contact) (hnd : (l.map (fun c => c.id)).Nodup)
    (hmem : c₀ ∈ l) (hid : c₀.id = chosen) (huid : c₀.user_id = uid) :
    (setPrimaryContact l uid chosen).countP
        (fun c => c.user_id == uid && c.is_primary) = 1 ∧
    ∀ c ∈ setPrimaryContact l uid chosen,
      c.user_id = uid → (c.is_primary = true ↔ c.id = chosen) := by
  constructor
  · rw [setPrimaryContact_eq_map, List.countP_map]
    have hfun : ((fun c => c.user_id == uid && c.is_primary) ∘
          primaryUpdate uid chosen)
        = fun c => c.user_id == uid && c.id == chosen := by
      funext c
      by_cases hu : c.user_id = uid
      · by_cases hc : c.id = chosen <;> simp [primaryUpdate, Function.comp, hu, hc]
      · have h1 : (c.user_id == uid) = false := by simp [hu]
        simp [primaryUpdate, Function.comp, h1]
    rw [hfun]
    exact countP_user_chosen_eq_one l uid chosen c₀ hnd hmem hid huid
  · intro c hc hcu
    rw [setPrimaryContact_eq_map] at hc
    obtain ⟨c', hc', rfl⟩ := List.mem_map.mp hc
    by_cases hu : c'.user_id = uid <;> by_cases hch : c'.id = chosen <;>
      simp [primaryUpdate, hu, hch] at hcu ⊢

/-- Witness for C4 at a concrete contact list. -/
theorem setPrimaryContact_exactly_one_primary_witness :
    (([⟨1, 7, "a", "r", "p", "e", true⟩, ⟨2, 7, "b", "r", "p", "e", false⟩] :
        List Contact).map (fun c => c.id)).Nodup ∧
    (⟨2, 7, "b", "r", "p", "e", false⟩ : Contact) ∈
        ([⟨1, 7, "a", "r", "p", "e", true⟩,
          ⟨2, 7, "b", "r", "p", "e", false⟩] : List Contact) ∧
    ((setPrimaryContact
          [⟨1, 7, "a", "r", "p", "e", true⟩, ⟨2, 7, "b", "r", "p", "e", false⟩]
          7 2).countP (fun c => c.user_id == 7 && c.is_primary) = 1 ∧
      ∀ c ∈ setPrimaryContact
          [⟨1, 7, "a", "r", "p", "e", true⟩, ⟨2, 7, "b", "r", "p", "e", false⟩]
          7 2, c.user_id = 7 → (c.is_primary = true ↔ c.id = 2)) :=
  ⟨by decide, by decide,
    setPrimaryContact_exactly_one_primary
      [⟨1, 7, "a", "r", "p", "e", true⟩, ⟨2, 7, "b", "r", "p", "e", false⟩]
      7 2 ⟨2, 7, "b", "r", "p", "e", false⟩ (by decide) (by decide) rfl rfl⟩

/-- C5 counterexample: if the chosen contact was already primary, the first
write (`clearOtherPrimaries`, which skips the chosen id) leaves that contact
primary, so the user is NOT left with zero primary contacts. -/
theorem clear_then_stop_not_zero_primaries :
    (clearOtherPrimaries [⟨1, 7, "a", "r", "p", "e", true⟩] 7 1).countP
      (fun c => c.user_id == 7 && c.is_primary) ≠ 0 := by decide

/-- C5 (amended): if the chosen contact of the caller was not already
primary, then after the first write alone the caller has zero primary
contacts; in general only the chosen contact can survive as primary. -/
theorem clear_then_stop_zero_primaries (l : List Contact) (uid chosen : Nat)
    (c₀ : Contact) (hnd : (l.map (fun c => c.id)).Nodup) (hmem : c₀ ∈ l)
    (hid : c₀.id = chosen) (_huid : c₀.user_id = uid)
    (hprim : c₀.is_primary = false) :
    (clearOtherPrimaries l uid chosen).countP
      (fun c => c.user_id == uid && c.is_primary) = 0 := by
  rw [clearOtherPrimaries, List.countP_map, List.countP_eq_zero]
  intro c' hc' hpc
  by_cases hu : c'.user_id = uid <;> by_cases hch : c'.id = chosen <;>
    simp [Function.comp, hu, hch] at hpc
  · have hce : c' = c₀ :=
      List.inj_on_of_nodup_map hnd hc' hmem (by rw [hch, hid])
    rw [hce, hprim] at hpc
    cases hpc

/-- Witness for the amended C5 at a concrete contact list. -/
theorem clear_then_stop_zero_primaries_witness :
    (([⟨1, 7, "a", "r", "p", "e", false⟩, ⟨2, 7, "b", "r", "p", "e", true⟩] :
        List Contact).map (fun c => c.id)).Nodup ∧
    (⟨1, 7, "a", "r", "p", "e", false⟩ : Contact).is_primary = false ∧
    (clearOtherPrimaries
        [⟨1, 7, "a", "r", "p", "e", false⟩, ⟨2, 7, "b", "r", "p", "e", true⟩]
        7 1).countP (fun c => c.user_id == 7 && c.is_primary) = 0 :=
  ⟨by decide, rfl,
    clear_then_stop_zero_primaries
      [⟨1, 7, "a", "r", "p", "e", false⟩, ⟨2, 7, "b", "r", "p", "e", true⟩]
      7 1 ⟨1, 7, "a", "r", "p", "e", false⟩ (by decide) (by decide) rfl rfl rfl⟩

/-- C10: a contact added by `addContact` is inserted with
`is_primary = true` exactly when the currently loaded contact list is
empty. -/
theorem addContact_primary_iff_empty (contacts : List Contact) (uid id : Nat)
    (name relationship phone_number email : String) :
    (addContactRow contacts uid id name relationship phone_number
        email).is_primary = true ↔ contacts = [] := by
  simp [addContactRow, List.length_eq_zero]

/-! ### Claim about reverse geocoding -/

/-- C6: whenever the reverse-geocoding request fails — network error, non-ok
response, or malformed body — `getAddressFromCoordinates` returns the
coordinate string built from both values rounded to six decimal places; being
a total function into `String`, it propagates no failure to its caller. -/
theorem getAddress_failure_fallback (latitude longitude : ℚ)
    (fetched : FetchOutcome) (h : fetchFailed fetched = true) :
    getAddressFromCoordinates latitude longitude fetched
      = coordFallback latitude longitude := by
  cases fetched with
  | networkError => rfl
  | response ok body =>
      cases ok <;> cases body <;>
        simp [getAddressFromCoordinates, fetchFailed] at h ⊢

/-- Witness for C6 at a concrete failed fetch. -/
theorem getAddress_failure_fallback_witness :
    fetchFailed (.response false (some "221B Baker Street")) = true ∧
    getAddressFromCoordinates 1 2 (.response false (some "221B Baker Street"))
      = coordFallback 1 2 :=
  ⟨rfl, getAddress_failure_fallback 1 2 (.response false (some "221B Baker Street")) rfl⟩

/-! ### Claim about alert status updates -/

/-- C8: the status-update write is unconditional — for any alert in the
table, whatever its current status, the operation leaves that alert carrying
the target status; no transition among the four enum values is rejected or
guarded (in particular resolved → pending goes through). -/
theorem updateAlertStatus_unconditional (alerts : List Alert) (alertId : Nat)
    (status : AlertStatus) (a : Alert) (hmem : a ∈ alerts)
    (hid : a.id = alertId) :
    { a with status := status } ∈ updateAlertStatus alerts alertId status ∧
    ∀ b ∈ updateAlertStatus alerts alertId status, b.id = alertId →
      b.status = status := by
  constructor
  · rw [updateAlertStatus]
    refine List.mem_map.mpr ⟨a, hmem, ?_⟩
    simp [hid]
  · intro b hb hbid
    rw [updateAlertStatus] at hb
    obtain ⟨a', ha', rfl⟩ := List.mem_map.mp hb
    by_cases h' : a'.id = alertId <;> simp [h'] at hbid ⊢

/-- Witness for C8: a resolved alert is written back to pending. -/
theorem updateAlertStatus_unconditional_witness :
    (⟨1, 5, .general, .resolved, 10⟩ : Alert) ∈
        ([⟨1, 5, .general, .resolved, 10⟩] : List Alert) ∧
    ({ (⟨1, 5, .general, .resolved, 10⟩ : Alert) with status := .pending } ∈
        updateAlertStatus [⟨1, 5, .general, .resolved, 10⟩] 1 .pending ∧
      ∀ b ∈ updateAlertStatus [⟨1, 5, .general, .resolved, 10⟩] 1 .pending,
        b.id = 1 → b.status = .pending) :=
  ⟨by decide,
    updateAlertStatus_unconditional [⟨1, 5, .general, .resolved, 10⟩] 1
      .pending ⟨1, 5, .general, .resolved, 10⟩ (by decide) rfl⟩

/-! ### Claim about registration -/

/-- C9: when the sign-up step succeeds and the subsequent profile-row insert
fails with a non-duplicate error, `handleRegister` surfaces an error message
but the identity created in step 1 remains in the identity store — nothing
rolls the sign-up back. -/
theorem register_no_rollback (db : RegDB) (ut : UserType) (u : Identity)
    (message : String)
    (hdup : strIncludes message
      "duplicate key value violates unique constraint" = false) :
    (handleRegister db ut (.success (some u)) (some message)).2.isSome = true ∧
    u ∈ (handleRegister db ut (.success (some u)) (some message)).1.identities ∧
    (handleRegister db ut (.success (some u)) (some message)).1.identities
      = u :: db.identities := by
  cases ut <;> simp [handleRegister, hdup]

/-- Witness for C9 at a concrete failing profile insert. -/
theorem register_no_rollback_witness :
    strIncludes "permission denied for table users"
      "duplicate key value violates unique constraint" = false ∧
    ((handleRegister ⟨[], [], []⟩ .civilian (.success (some ⟨1, "a@b.c"⟩))
        (some "permission denied for table users")).2.isSome = true ∧
      (⟨1, "a@b.c"⟩ : Identity) ∈
        (handleRegister ⟨[], [], []⟩ .civilian (.success (some ⟨1, "a@b.c"⟩))
          (some "permission denied for table users")).1.identities ∧
      (handleRegister ⟨[], [], []⟩ .civilian (.success (some ⟨1, "a@b.c"⟩))
          (some "permission denied for table users")).1.identities
        = ⟨1, "a@b.c"⟩ :: ([] : List Identity)) :=
  ⟨by decide,
    register_no_rollback ⟨[], [], []⟩ .civilian ⟨1, "a@b.c"⟩
      "permission denied for table users" (by decide)⟩

end EmergencyAlert
